import Mathlib

/-!
Shallow embedding of the cargo-binutils core (src/lib.rs): the Tool and
Artifact data model, the execution-context construction (Context::new and
Context::tool), and the top-level run routine, with external collaborators
(cargo build, cargo::artifact, rustc::Cfg::parse, llvm::arch_name, the
postprocess transforms and process spawning) abstracted into an environment
record.  The run function returns the ordered trace of externally visible
steps (build execution, toolchain location, tool invocation, output
emission) together with its result, so ordering properties are provable.
-/

set_option maxHeartbeats 1000000

namespace CargoBinutils

/-- The six selectable tools, mirroring enum Tool in src/lib.rs. -/
inductive Tool where
  | Nm
  | Objcopy
  | Objdump
  | Profdata
  | Size
  | Strip
deriving Repr, DecidableEq

/-- Tool::name from src/lib.rs. -/
def Tool.name : Tool → String
  | .Nm => "nm"
  | .Objcopy => "objcopy"
  | .Objdump => "objdump"
  | .Profdata => "profdata"
  | .Size => "size"
  | .Strip => "strip"

/-- Tool::needs_build from src/lib.rs: whether the tool requires the project
to be previously built. -/
def Tool.needs_build : Tool → Bool
  | .Nm | .Objcopy | .Objdump | .Size | .Strip => true
  | .Profdata => false

/-- Endianness, mirroring enum Endian in src/lib.rs. -/
inductive Endian where
  | Little
  | Big
deriving Repr, DecidableEq

/-- Modelled from the spec: the target configuration facts produced by
rustc::Cfg::parse (module rustc is not under src/): architecture name,
pointer width and endianness of the parsed target triple. -/
structure Cfg where
  arch : String
  pointerWidth : Nat
  endian : Endian
deriving Repr, DecidableEq

/-- The artifact the user selected to build and inspect, mirroring
enum Artifact in src/lib.rs. -/
inductive Artifact where
  | Bin (name : String)
  | Example (name : String)
  | Lib
deriving Repr, DecidableEq

/-- A fully resolved artifact path, split into the containing directory and
the file name, so that Path::parent and Path::file_name are total. -/
structure ResolvedPath where
  dir : String
  base : String
deriving Repr, DecidableEq

/-- The full textual path of a resolved artifact. -/
def ResolvedPath.full (p : ResolvedPath) : String :=
  p.dir ++ "/" ++ p.base

/-- A directory entry produced by the WalkDir traversal of the sysroot:
its containing directory (Path::parent) and its file name. -/
structure DirEntry where
  dir : String
  fileName : String
deriving Repr, DecidableEq

/-- The exit status of a child process: the exit code when the process
exited normally, none when it was terminated without reporting one
(for example by a signal). -/
structure ExitStatus where
  code : Option Int
deriving Repr, DecidableEq

/-- ExitStatus::success: the process exited with code zero. -/
def ExitStatus.success (s : ExitStatus) : Bool :=
  s.code == some 0

/-- The captured result of spawning the wrapped llvm tool: its standard
output bytes and its exit status. -/
structure ToolOut where
  stdout : List Nat
  status : ExitStatus
deriving Repr, DecidableEq

/-- A tool invocation assembled by run: executable path, ordered argument
list, and the optional working-directory override. -/
structure ToolInvocation where
  program : String
  args : List String
  cwd : Option String
deriving Repr, DecidableEq

/-- The error cases surfaced by run and Context::new. -/
inductive CbError where
  | invalidRequest
  | componentMissing
  | cfgParseFail (triple : String)
  | artifactResolution (msg : String)
deriving Repr, DecidableEq

/-- The parsed command-line matches consumed by run.  For a tool whose
needs_build flag is false the bin, exampleName, lib and release arguments are
never registered with the parser, so they cannot be present on a real parse;
run ignores them in that case exactly as the source does. -/
structure Matches where
  verbose : Bool
  target_flag : Option String
  bin : Option String
  exampleName : Option String
  lib : Bool
  release : Bool
  dashArg : Option String
  args : List String
deriving Repr, DecidableEq

/-- A Matches value is producible by the argument parser for the given tool:
the bin, exampleName and lib selectors are only registered (hence only
presentable) when the tool needs a build. -/
def Matches.wfFor (m : Matches) (tool : Tool) : Bool :=
  !(m.bin.isSome || m.exampleName.isSome || m.lib) || tool.needs_build

/-- The environment of external collaborators abstracted away from run:
project configuration, rustc metadata, the sysroot directory tree, the
missing helper modules (rustc::Cfg::parse, cargo::artifact, llvm::arch_name,
postprocess::demangle, postprocess::size) and the two child processes. -/
structure Env where
  build_target : Option String
  host : String
  sysroot : List DirEntry
  onWindows : Bool
  cfgParse : String → Except String Cfg
  cargoArtifact : Artifact → Bool → Option String → Option String → Except String ResolvedPath
  arch_name : Cfg → String → String
  buildStatus : ExitStatus
  toolOutput : ToolInvocation → ToolOut
  demangle : List Nat → List Nat
  sizePP : List Nat → List Nat

/-- The exe helper from src/lib.rs: append the platform executable suffix. -/
def exe (onWindows : Bool) (name : String) : String :=
  if onWindows then name ++ ".exe" else name

/-- The execution context, mirroring struct Context in src/lib.rs. -/
structure Context where
  bindir : String
  build_target : Option String
  cfg : Cfg
  target : String
deriving Repr, DecidableEq

/-- The effective-target computation from Context::new in src/lib.rs: the
explicit flag, defaulted to the project build target, defaulted to host. -/
def resolvedTarget (env : Env) (target_flag : Option String) : String :=
  (target_flag.orElse fun _ => env.build_target).getD env.host

/-- Context::new from src/lib.rs: resolve the effective target triple with
precedence explicit flag, then project build target, then host; parse its
configuration; then walk the sysroot tree and return the containing
directory of the first entry named llvm-size (with platform suffix), or fail
with componentMissing when no entry matches. -/
def Context.new (env : Env) (target_flag : Option String) : Except CbError Context :=
  match env.cfgParse (resolvedTarget env target_flag) with
  | .error t => .error (.cfgParseFail t)
  | .ok cfg =>
    match env.sysroot.find? (fun e => e.fileName == exe env.onWindows "llvm-size") with
    | some e => .ok { bindir := e.dir, build_target := env.build_target, cfg
                    , target := resolvedTarget env target_flag }
    | none => .error .componentMissing

/-- Context::tool from src/lib.rs: the base invocation of the llvm tool,
with the arch-name flag injected for objdump only. -/
def Context.tool (env : Env) (ctxt : Context) (tool : Tool) (target : String) : ToolInvocation :=
  { program := ctxt.bindir ++ "/" ++ exe env.onWindows ("llvm-" ++ tool.name)
  , args := if tool == Tool.Objdump then ["-arch-name", env.arch_name ctxt.cfg target] else []
  , cwd := none }

/-- The at_least_two_are_true helper from run in src/lib.rs. -/
def at_least_two_are_true (a b c : Bool) : Bool :=
  if a then b || c else b && c

/-- The artifact-selection if chain from run in src/lib.rs, reached only
after the mutual-exclusivity check passed. -/
def selectArtifact (m : Matches) : Option Artifact × Bool :=
  match m.bin with
  | some name => (some (.Bin name), m.release)
  | none =>
    match m.exampleName with
    | some name => (some (.Example name), m.release)
    | none => if m.lib then (some .Lib, m.release) else (none, m.release)

/-- The selector validation at the top of run: for a build-needing tool,
reject when at least two of bin, example and lib are present, otherwise
select the artifact; for the other tools no selectors exist. -/
def validateSelectors (tool : Tool) (m : Matches) : Except CbError (Option Artifact × Bool) :=
  if tool.needs_build then
    if at_least_two_are_true m.bin.isSome m.exampleName.isSome m.lib then
      .error .invalidRequest
    else .ok (selectArtifact m)
  else .ok (none, false)

/-- The cargo build command line assembled by run in src/lib.rs. -/
def cargoCmd (target_flag : Option String) (artifact : Option Artifact) (release : Bool) :
    List String :=
  ["cargo", "build"]
    ++ (match target_flag with | some t => ["--target", t] | none => [])
    ++ (match artifact with
        | some (.Bin b) => ["--bin", b]
        | some (.Example e) => ["--example", e]
        | some .Lib => ["--lib"]
        | none => [])
    ++ (if release then ["--release"] else [])

/-- The user-supplied trailing arguments collected by run: the value of the
double-dash argument, then all free-form positional arguments, in order. -/
def toolArgsOf (m : Matches) : List String :=
  (match m.dashArg with | some a => [a] | none => []) ++ m.args

/-- The artifact placement match from run in src/lib.rs: for objdump, nm and
size change the working directory to the artifact parent and pass the bare
file name; for objcopy, profdata and strip pass the full path. -/
def placeArtifact (tool : Tool) (base : ToolInvocation) (p : ResolvedPath) : ToolInvocation :=
  match tool with
  | .Objdump | .Nm | .Size => { base with cwd := some p.dir, args := base.args ++ [p.base] }
  | .Objcopy | .Profdata | .Strip => { base with args := base.args ++ [p.full] }

/-- The output postprocessing match from run in src/lib.rs: demangle for
objdump and nm, the size table transform for size, identity for the rest. -/
def postprocessOutput (env : Env) (tool : Tool) (out : List Nat) : List Nat :=
  match tool with
  | .Objdump | .Nm => env.demangle out
  | .Size => env.sizePP out
  | .Objcopy | .Profdata | .Strip => out

/-- The exit-code computation at the end of run: zero on success, otherwise
the child exit code, or the fixed code one when none was reported. -/
def finalExit (s : ExitStatus) : Int :=
  if s.success then 0 else s.code.getD 1

/-- The externally visible steps run performs, in order: executing the
delegated cargo build, locating the toolchain (the Context::new sysroot
walk), spawning the wrapped tool, and writing the postprocessed output. -/
inductive Event where
  | buildExec (cmd : List String)
  | locate
  | toolExec (inv : ToolInvocation)
  | writeOut (out : List Nat)
deriving Repr, DecidableEq

/-- Whether an event is an execution of the delegated build. -/
def Event.isBuild : Event → Bool
  | .buildExec _ => true
  | _ => false

/-- Append the user trailing arguments to an assembled invocation
(src/lib.rs line 340). -/
def withTrailing (inv : ToolInvocation) (m : Matches) : ToolInvocation :=
  { inv with args := inv.args ++ toolArgsOf m }

/-- The invocation after artifact resolution and placement (src/lib.rs
lines 319-338): the base invocation when no artifact was selected,
otherwise the base invocation with the artifact resolved by cargo::artifact
and placed per the tool, or the resolution failure. -/
def placedInvocation (env : Env) (tool : Tool) (m : Matches) (artifact : Option Artifact)
    (release : Bool) (ctxt : Context) : Except CbError ToolInvocation :=
  match artifact with
  | none => .ok (Context.tool env ctxt tool ctxt.target)
  | some kind =>
    match env.cargoArtifact kind release m.target_flag ctxt.build_target with
    | .error msg => .error (.artifactResolution msg)
    | .ok p => .ok (placeArtifact tool (Context.tool env ctxt tool ctxt.target) p)

/-- The part of run from Context::new on (src/lib.rs lines 319-364), given
the already-constructed context: assemble the base invocation, resolve and
place the artifact when one was selected, append the trailing arguments,
spawn the tool, postprocess its captured standard output and compute the
exit code. -/
def runWithContext (env : Env) (tool : Tool) (m : Matches)
    (artifact : Option Artifact) (release : Bool) (ctxt : Context) :
    List Event × Except CbError Int :=
  match placedInvocation env tool m artifact release ctxt with
  | .error e => ([Event.locate], .error e)
  | .ok placedInv =>
    ([Event.locate, Event.toolExec (withTrailing placedInv m),
      Event.writeOut
        (postprocessOutput env tool (env.toolOutput (withTrailing placedInv m)).stdout)],
     .ok (finalExit (env.toolOutput (withTrailing placedInv m)).status))

/-- Construct the context (src/lib.rs line 317) and continue with
runWithContext; a context-construction failure aborts the run after the
locate step. -/
def runTool (env : Env) (tool : Tool) (m : Matches)
    (artifact : Option Artifact) (release : Bool) : List Event × Except CbError Int :=
  match Context.new env m.target_flag with
  | .error e => ([Event.locate], .error e)
  | .ok ctxt => runWithContext env tool m artifact release ctxt

/-- The run function from src/lib.rs: validate the artifact selectors, run
the delegated cargo build when an artifact was selected (propagating a
failed build status as the exit code), then locate the toolchain, invoke
the wrapped tool and postprocess its output. -/
def run (env : Env) (tool : Tool) (m : Matches) : List Event × Except CbError Int :=
  match validateSelectors tool m with
  | .error e => ([], .error e)
  | .ok (artifact, release) =>
    if artifact.isSome then
      if env.buildStatus.success then
        (Event.buildExec (cargoCmd m.target_flag artifact release) ::
            (runTool env tool m artifact release).1,
         (runTool env tool m artifact release).2)
      else
        ([Event.buildExec (cargoCmd m.target_flag artifact release)],
         .ok (env.buildStatus.code.getD 1))
    else runTool env tool m artifact release

/-- A concrete target configuration used by the witnesses. -/
def cfgW : Cfg := { arch := "thumb", pointerWidth := 32, endian := .Little }

/-- A concrete environment used by the witnesses: the sysroot tree contains
one llvm-size entry, the build succeeds, and the wrapped tool exits zero. -/
def envW : Env :=
  { build_target := some "thumbv7m-none-eabi"
  , host := "x86_64-unknown-linux-gnu"
  , sysroot := [⟨"/sysroot/lib", "libstd.rlib"⟩, ⟨"/sysroot/bin", "llvm-size"⟩]
  , onWindows := false
  , cfgParse := fun _ => .ok cfgW
  , cargoArtifact := fun _ _ _ _ => .ok ⟨"/proj/target/debug", "app"⟩
  , arch_name := fun cfg _ => cfg.arch
  , buildStatus := ⟨some 0⟩
  , toolOutput := fun _ => ⟨[1, 2, 3], ⟨some 0⟩⟩
  , demangle := fun out => 0 :: out
  , sizePP := fun out => 1 :: out }

/-- The context envW produces when no explicit target flag is given. -/
def ctxtW : Context :=
  { bindir := "/sysroot/bin"
  , build_target := some "thumbv7m-none-eabi"
  , cfg := cfgW
  , target := "thumbv7m-none-eabi" }

/-- A concrete parsed command line with no artifact selector. -/
def mNoSel : Matches :=
  { verbose := false, target_flag := none, bin := none, exampleName := none
  , lib := false, release := false, dashArg := none, args := [] }

/-- A concrete parsed command line selecting the binary named app. -/
def mBin : Matches := { mNoSel with bin := some "app" }

/-- A concrete parsed command line selecting both a binary and an example. -/
def mBinExample : Matches := { mNoSel with bin := some "app", exampleName := some "demo" }

/-- The witness environment with a sysroot tree holding no llvm-size entry. -/
def envNoLlvm : Env := { envW with sysroot := [⟨"/sysroot/lib", "libstd.rlib"⟩] }

/-- The witness environment whose delegated build fails with exit code 101. -/
def envBuildFail : Env := { envW with buildStatus := ⟨some 101⟩ }

/-- A concrete parsed command line with a binary selector and trailing
arguments: a double-dash token followed by two positional arguments. -/
def mTrail : Matches := { mBin with dashArg := some "-x", args := ["a", "b"] }

/-- If at least two of three selectors are present then at least one is. -/
theorem at_least_two_imp (a b c : Bool) :
    at_least_two_are_true a b c = true → (a || b || c) = true := by
  revert a b c
  decide

/-- Branch equation: a failed placement aborts after the locate step. -/
theorem runWithContext_err (env : Env) (tool : Tool) (m : Matches) (a : Option Artifact)
    (r : Bool) (ctxt : Context) (e : CbError)
    (hp : placedInvocation env tool m a r ctxt = .error e) :
    runWithContext env tool m a r ctxt = ([Event.locate], .error e) := by
  unfold runWithContext
  rw [hp]

/-- Branch equation: a successful placement runs the tool on the placed
invocation with the trailing arguments appended. -/
theorem runWithContext_ok (env : Env) (tool : Tool) (m : Matches) (a : Option Artifact)
    (r : Bool) (ctxt : Context) (placedInv : ToolInvocation)
    (hp : placedInvocation env tool m a r ctxt = .ok placedInv) :
    runWithContext env tool m a r ctxt =
      ([Event.locate, Event.toolExec (withTrailing placedInv m),
        Event.writeOut
          (postprocessOutput env tool (env.toolOutput (withTrailing placedInv m)).stdout)],
       .ok (finalExit (env.toolOutput (withTrailing placedInv m)).status)) := by
  unfold runWithContext
  rw [hp]

/-- Branch equation: a failed context construction aborts after locating. -/
theorem runTool_err (env : Env) (tool : Tool) (m : Matches) (a : Option Artifact)
    (r : Bool) (e : CbError) (hc : Context.new env m.target_flag = .error e) :
    runTool env tool m a r = ([Event.locate], .error e) := by
  unfold runTool
  rw [hc]

/-- Branch equation: a successful context construction continues with the
post-context part of run. -/
theorem runTool_ok (env : Env) (tool : Tool) (m : Matches) (a : Option Artifact)
    (r : Bool) (ctxt : Context) (hc : Context.new env m.target_flag = .ok ctxt) :
    runTool env tool m a r = runWithContext env tool m a r ctxt := by
  unfold runTool
  rw [hc]

/-- Branch equation: failed selector validation aborts with an empty trace. -/
theorem run_validate_err (env : Env) (tool : Tool) (m : Matches) (e : CbError)
    (hv : validateSelectors tool m = .error e) :
    run env tool m = ([], .error e) := by
  unfold run
  rw [hv]

/-- Branch equation: with no artifact selected, run skips the build. -/
theorem run_no_artifact (env : Env) (tool : Tool) (m : Matches) (r : Bool)
    (hv : validateSelectors tool m = .ok (none, r)) :
    run env tool m = runTool env tool m none r := by
  unfold run
  rw [hv]
  rfl

/-- Branch equation: with an artifact selected and a successful build, run
prepends the build execution to the post-build part. -/
theorem run_artifact_buildok (env : Env) (tool : Tool) (m : Matches) (kind : Artifact)
    (r : Bool) (hv : validateSelectors tool m = .ok (some kind, r))
    (hs : env.buildStatus.success = true) :
    run env tool m =
      (Event.buildExec (cargoCmd m.target_flag (some kind) r) ::
          (runTool env tool m (some kind) r).1,
       (runTool env tool m (some kind) r).2) := by
  unfold run
  rw [hv]
  simp [hs]

/-- Branch equation: with an artifact selected and a failed build, run stops
at the build and returns the build exit code defaulted to one. -/
theorem run_artifact_buildfail (env : Env) (tool : Tool) (m : Matches) (kind : Artifact)
    (r : Bool) (hv : validateSelectors tool m = .ok (some kind, r))
    (hs : env.buildStatus.success = false) :
    run env tool m =
      ([Event.buildExec (cargoCmd m.target_flag (some kind) r)],
       .ok (env.buildStatus.code.getD 1)) := by
  unfold run
  rw [hv]
  simp [hs]

/-- When the mutual-exclusivity check passes, selector validation succeeds
with the selected artifact (or none for a tool needing no build). -/
theorem validateSelectors_ok (tool : Tool) (m : Matches)
    (h2 : at_least_two_are_true m.bin.isSome m.exampleName.isSome m.lib = false) :
    validateSelectors tool m =
      .ok (if tool.needs_build then selectArtifact m else (none, false)) := by
  unfold validateSelectors
  split
  · rw [h2]
    simp
  · rfl

/-- Context construction never produces the invalidRequest error. -/
theorem Context.new_ne_invalid (env : Env) (flag : Option String) :
    Context.new env flag ≠ .error .invalidRequest := by
  unfold Context.new
  split
  · simp
  · split <;> simp

/-- The placed invocation never produces the invalidRequest error. -/
theorem placedInvocation_ne_invalid (env : Env) (tool : Tool) (m : Matches)
    (a : Option Artifact) (r : Bool) (ctxt : Context) :
    placedInvocation env tool m a r ctxt ≠ .error .invalidRequest := by
  unfold placedInvocation
  split
  · simp
  · split <;> simp

/-- The post-validation part of run never produces invalidRequest. -/
theorem runTool_ne_invalid (env : Env) (tool : Tool) (m : Matches)
    (a : Option Artifact) (r : Bool) :
    (runTool env tool m a r).2 ≠ .error .invalidRequest := by
  rcases hc : Context.new env m.target_flag with e | ctxt
  · rw [runTool_err env tool m a r e hc]
    intro hcon
    simp only [Except.error.injEq] at hcon
    subst hcon
    exact Context.new_ne_invalid env m.target_flag hc
  · rw [runTool_ok env tool m a r ctxt hc]
    rcases hp : placedInvocation env tool m a r ctxt with e | placedInv
    · rw [runWithContext_err env tool m a r ctxt e hp]
      intro hcon
      simp only [Except.error.injEq] at hcon
      subst hcon
      exact placedInvocation_ne_invalid env tool m a r ctxt hp
    · rw [runWithContext_ok env tool m a r ctxt placedInv hp]
      simp

/-- Every tool-execution event in the post-context part of run comes from
the placed invocation with the trailing arguments appended, and the result
is the tool exit-code policy applied to the status of that invocation. -/
theorem toolExec_runWithContext (env : Env) (tool : Tool) (m : Matches)
    (a : Option Artifact) (r : Bool) (ctxt : Context) (inv : ToolInvocation)
    (h : Event.toolExec inv ∈ (runWithContext env tool m a r ctxt).1) :
    ∃ placedInv, placedInvocation env tool m a r ctxt = .ok placedInv ∧
      inv = withTrailing placedInv m ∧
      (runWithContext env tool m a r ctxt).2 =
        .ok (finalExit (env.toolOutput inv).status) := by
  rcases hp : placedInvocation env tool m a r ctxt with e | placedInv
  · rw [runWithContext_err env tool m a r ctxt e hp] at h
    simp at h
  · rw [runWithContext_ok env tool m a r ctxt placedInv hp] at h
    have hinv : inv = withTrailing placedInv m := by
      simpa using h
    subst hinv
    exact ⟨placedInv, rfl, rfl, by
      rw [runWithContext_ok env tool m a r ctxt placedInv hp]⟩

/-- Every tool-execution event in run comes from a successful selector
validation, context construction and artifact placement, carries the
trailing arguments appended to the placed invocation, and determines the
run result through the tool exit-code policy. -/
theorem toolExec_run (env : Env) (tool : Tool) (m : Matches) (inv : ToolInvocation)
    (h : Event.toolExec inv ∈ (run env tool m).1) :
    ∃ a r ctxt placedInv,
      validateSelectors tool m = .ok (a, r) ∧
      Context.new env m.target_flag = .ok ctxt ∧
      placedInvocation env tool m a r ctxt = .ok placedInv ∧
      inv = withTrailing placedInv m ∧
      (run env tool m).2 = .ok (finalExit (env.toolOutput inv).status) := by
  rcases hv : validateSelectors tool m with e | ⟨a, r⟩
  · rw [run_validate_err env tool m e hv] at h
    simp at h
  · have key : ∀ hmem : Event.toolExec inv ∈ (runTool env tool m a r).1,
        ∃ ctxt placedInv,
          Context.new env m.target_flag = .ok ctxt ∧
          placedInvocation env tool m a r ctxt = .ok placedInv ∧
          inv = withTrailing placedInv m ∧
          (runTool env tool m a r).2 = .ok (finalExit (env.toolOutput inv).status) := by
      intro hmem
      rcases hc : Context.new env m.target_flag with e | ctxt
      · rw [runTool_err env tool m a r e hc] at hmem
        simp at hmem
      · rw [runTool_ok env tool m a r ctxt hc] at hmem
        obtain ⟨placedInv, hp, hi, hres⟩ :=
          toolExec_runWithContext env tool m a r ctxt inv hmem
        exact ⟨ctxt, placedInv, rfl, hp, hi,
          by rw [runTool_ok env tool m a r ctxt hc]; exact hres⟩
    cases a with
    | none =>
      rw [run_no_artifact env tool m r hv] at h
      obtain ⟨ctxt, placedInv, hc, hp, hi, hres⟩ := key h
      exact ⟨none, r, ctxt, placedInv, rfl, hc, hp, hi,
        by rw [run_no_artifact env tool m r hv]; exact hres⟩
    | some kind =>
      cases hs : env.buildStatus.success with
      | false =>
        rw [run_artifact_buildfail env tool m kind r hv hs] at h
        simp at h
      | true =>
        rw [run_artifact_buildok env tool m kind r hv hs] at h
        simp only [List.mem_cons] at h
        rcases h with h | h
        · cases h
        · obtain ⟨ctxt, placedInv, hc, hp, hi, hres⟩ := key h
          exact ⟨some kind, r, ctxt, placedInv, rfl, hc, hp, hi,
            by rw [run_artifact_buildok env tool m kind r hv hs]; exact hres⟩

/-- When an artifact is selected and the delegated build fails, run stops
at the build with the build exit code (defaulted to one). -/
theorem run_build_fail (env : Env) (tool : Tool) (m : Matches) (kind : Artifact)
    (hnb : tool.needs_build = true)
    (hval : at_least_two_are_true m.bin.isSome m.exampleName.isSome m.lib = false)
    (hsel : (selectArtifact m).1 = some kind)
    (hfail : env.buildStatus.success = false) :
    run env tool m =
      ([Event.buildExec (cargoCmd m.target_flag (some kind) (selectArtifact m).2)],
       .ok (env.buildStatus.code.getD 1)) := by
  have hv : validateSelectors tool m = .ok (some kind, (selectArtifact m).2) := by
    rw [validateSelectors_ok tool m hval, hnb]
    simp only [if_true]
    rw [← hsel]
  exact run_artifact_buildfail env tool m kind (selectArtifact m).2 hv hfail

/-- C1: the effective target triple stored in the execution context is the
highest-precedence present source: the explicit flag if given, otherwise the
project-configured build target if present, otherwise the host triple. -/
theorem target_precedence (env : Env) (flag : Option String) (ctxt : Context)
    (h : Context.new env flag = .ok ctxt) :
    (∀ t, flag = some t → ctxt.target = t) ∧
    (flag = none → ∀ t, env.build_target = some t → ctxt.target = t) ∧
    (flag = none → env.build_target = none → ctxt.target = env.host) := by
  have htarget : ctxt.target = resolvedTarget env flag := by
    unfold Context.new at h
    split at h
    · simp at h
    · split at h
      · simp only [Except.ok.injEq] at h
        subst h
        rfl
      · simp at h
  refine ⟨?_, ?_, ?_⟩
  · intro t ht
    subst ht
    simpa [resolvedTarget] using htarget
  · intro hf t ht
    subst hf
    rw [htarget]
    simp [resolvedTarget, ht]
  · intro hf hb
    subst hf
    rw [htarget]
    simp [resolvedTarget, hb]

/-- C1 witness: with an explicit flag the context target is that flag. -/
theorem target_precedence_witness :
    Context.new envW (some "riscv32i-unknown-none-elf") =
      .ok { ctxtW with target := "riscv32i-unknown-none-elf" } ∧
    ({ ctxtW with target := "riscv32i-unknown-none-elf" } : Context).target =
      "riscv32i-unknown-none-elf" :=
  ⟨rfl,
   (target_precedence envW (some "riscv32i-unknown-none-elf")
      { ctxtW with target := "riscv32i-unknown-none-elf" } rfl).1
     "riscv32i-unknown-none-elf" rfl⟩

/-- C5: placing a resolved artifact into the base invocation sets the
working directory to the artifact parent and passes the bare file name for
nm, objdump and size, and passes the full path with no working-directory
override for objcopy, profdata and strip. -/
theorem artifact_placement (env : Env) (ctxt : Context) (tool : Tool) (target : String)
    (p : ResolvedPath) :
    ((tool = Tool.Nm ∨ tool = Tool.Objdump ∨ tool = Tool.Size) →
      (placeArtifact tool (Context.tool env ctxt tool target) p).cwd = some p.dir ∧
      (placeArtifact tool (Context.tool env ctxt tool target) p).args =
        (Context.tool env ctxt tool target).args ++ [p.base]) ∧
    ((tool = Tool.Objcopy ∨ tool = Tool.Profdata ∨ tool = Tool.Strip) →
      (placeArtifact tool (Context.tool env ctxt tool target) p).cwd = none ∧
      (placeArtifact tool (Context.tool env ctxt tool target) p).args =
        (Context.tool env ctxt tool target).args ++ [p.full]) := by
  cases tool <;> simp [placeArtifact, Context.tool]

/-- C5 witness: for nm the working directory becomes the artifact parent and
the bare file name is appended. -/
theorem artifact_placement_witness :
    (placeArtifact Tool.Nm (Context.tool envW ctxtW Tool.Nm "t") ⟨"/d", "f"⟩).cwd =
      some ("/d" : String) ∧
    (placeArtifact Tool.Nm (Context.tool envW ctxtW Tool.Nm "t") ⟨"/d", "f"⟩).args =
      (Context.tool envW ctxtW Tool.Nm "t").args ++ ["f"] :=
  (artifact_placement envW ctxtW Tool.Nm "t" ⟨"/d", "f"⟩).1 (Or.inl rfl)

/-- C6: the base invocation built by Context::tool injects the arch-name
flag for objdump, and injects nothing for every other tool. -/
theorem objdump_arch_injection (env : Env) (ctxt : Context) (target : String) :
    (Context.tool env ctxt Tool.Objdump target).args =
      ["-arch-name", env.arch_name ctxt.cfg target] ∧
    ∀ tool, tool ≠ Tool.Objdump → (Context.tool env ctxt tool target).args = [] := by
  refine ⟨rfl, ?_⟩
  intro tool h
  cases tool <;> first | exact absurd rfl h | rfl

/-- C6 witness: for nm no arguments are injected. -/
theorem objdump_arch_injection_witness :
    (Context.tool envW ctxtW Tool.Nm "thumbv7m-none-eabi").args = [] :=
  (objdump_arch_injection envW ctxtW "thumbv7m-none-eabi").2 Tool.Nm (by decide)

/-- C2: for a command line the parser can produce for the tool, when two or
more of the bin, example and lib selectors are present run fails with
invalidRequest and an empty trace, hence before any build execution or
artifact resolution; with at most one present run never returns
invalidRequest. -/
theorem selector_mutual_exclusion (env : Env) (tool : Tool) (m : Matches)
    (hwf : m.wfFor tool = true) :
    (at_least_two_are_true m.bin.isSome m.exampleName.isSome m.lib = true →
      run env tool m = ([], .error .invalidRequest)) ∧
    (at_least_two_are_true m.bin.isSome m.exampleName.isSome m.lib = false →
      (run env tool m).2 ≠ .error .invalidRequest) := by
  constructor
  · intro h2
    have hone := at_least_two_imp _ _ _ h2
    have hnb : tool.needs_build = true := by
      unfold Matches.wfFor at hwf
      rw [hone] at hwf
      simpa using hwf
    have hv : validateSelectors tool m = .error .invalidRequest := by
      unfold validateSelectors
      rw [hnb, h2]
      simp
    exact run_validate_err env tool m _ hv
  · intro h2
    have hvok := validateSelectors_ok tool m h2
    rcases hpair : (if tool.needs_build then selectArtifact m
        else ((none : Option Artifact), false)) with ⟨a, r⟩
    rw [hpair] at hvok
    cases a with
    | none =>
      rw [run_no_artifact env tool m r hvok]
      exact runTool_ne_invalid env tool m none r
    | some kind =>
      cases hs : env.buildStatus.success with
      | true =>
        rw [run_artifact_buildok env tool m kind r hvok hs]
        simpa using runTool_ne_invalid env tool m (some kind) r
      | false =>
        rw [run_artifact_buildfail env tool m kind r hvok hs]
        simp

/-- C2 witness: selecting both a binary and an example fails at once. -/
theorem selector_mutual_exclusion_witness :
    run envW Tool.Size mBinExample = ([], .error .invalidRequest) :=
  (selector_mutual_exclusion envW Tool.Size mBinExample (by decide)).1 (by decide)

/-- C3 counterexample: with a binary selector and a sysroot tree holding no
llvm-size entry, the delegated build executes first and the componentMissing
failure comes only after it, so the run does not fail before a build
command is attempted. -/
theorem component_missing_counterexample :
    run envNoLlvm Tool.Size mBin =
      ([Event.buildExec ["cargo", "build", "--bin", "app"], Event.locate],
       .error .componentMissing) ∧
    (run envNoLlvm Tool.Size mBin).1.any Event.isBuild = true :=
  ⟨rfl, rfl⟩

/-- C3 (amended): when the effective target parses and the sysroot tree
contains no entry named llvm-size (with platform suffix), context
construction fails with componentMissing, and having exhausted the whole
tree: it fails exactly when no entry anywhere matches; the run then
performs no tool invocation (though the delegated build, when an artifact
selector is present, has already run); on success the toolchain binary
directory is the containing directory of the first matching entry. -/
theorem component_missing_behavior (env : Env) (tool : Tool) (m : Matches) (cfg : Cfg)
    (hcfg : env.cfgParse (resolvedTarget env m.target_flag) = .ok cfg) :
    ((∀ e ∈ env.sysroot, (e.fileName == exe env.onWindows "llvm-size") = false) →
      Context.new env m.target_flag = .error .componentMissing ∧
      ∀ inv, Event.toolExec inv ∉ (run env tool m).1) ∧
    (∀ e, env.sysroot.find? (fun x => x.fileName == exe env.onWindows "llvm-size") = some e →
      ∃ ctxt, Context.new env m.target_flag = .ok ctxt ∧ ctxt.bindir = e.dir) := by
  constructor
  · intro hmiss
    have hfind : env.sysroot.find?
        (fun e => e.fileName == exe env.onWindows "llvm-size") = none := by
      rw [List.find?_eq_none]
      intro x hx
      simp [hmiss x hx]
    have hctx : Context.new env m.target_flag = .error .componentMissing := by
      unfold Context.new
      rw [hcfg, hfind]
    refine ⟨hctx, ?_⟩
    intro inv hmem
    obtain ⟨a, r, ctxt, placedInv, hv, hc, _, _, _⟩ := toolExec_run env tool m inv hmem
    rw [hctx] at hc
    simp at hc
  · intro e hfind
    refine ⟨{ bindir := e.dir, build_target := env.build_target, cfg := cfg
            , target := resolvedTarget env m.target_flag }, ?_, rfl⟩
    unfold Context.new
    rw [hcfg, hfind]

/-- C3 witness: an empty toolchain tree yields componentMissing. -/
theorem component_missing_behavior_witness :
    Context.new envNoLlvm none = .error .componentMissing :=
  ((component_missing_behavior envNoLlvm Tool.Size mNoSel cfgW rfl).1 (by decide)).1

/-- C4 counterexample: for the size tool with no selector, the run performs
no build at all and invokes the tool with no artifact argument, instead of
building and using the package default target. -/
theorem default_artifact_counterexample :
    run envW Tool.Size mNoSel =
      ([Event.locate,
        Event.toolExec { program := "/sysroot/bin/llvm-size", args := [], cwd := none },
        Event.writeOut [1, 1, 2, 3]],
       .ok 0) ∧
    (run envW Tool.Size mNoSel).1.any Event.isBuild = false :=
  ⟨rfl, rfl⟩

/-- C4 (amended): for every build-needing tool, when none of the bin,
example and lib selectors is given the request is still valid (run never
returns invalidRequest); but no build is executed and no artifact is
resolved: the tool is invoked with its base invocation and the user
trailing arguments only. -/
theorem no_selector_no_build (env : Env) (tool : Tool) (m : Matches)
    (hnb : tool.needs_build = true)
    (hbin : m.bin = none) (hex : m.exampleName = none) (hlib : m.lib = false) :
    (run env tool m).2 ≠ .error .invalidRequest ∧
    (∀ c, Event.buildExec c ∉ (run env tool m).1) ∧
    (∀ inv, Event.toolExec inv ∈ (run env tool m).1 →
      ∃ ctxt, Context.new env m.target_flag = .ok ctxt ∧
        inv = withTrailing (Context.tool env ctxt tool ctxt.target) m) := by
  have hsel : selectArtifact m = (none, m.release) := by
    unfold selectArtifact
    rw [hbin, hex, hlib]
    simp
  have hval : at_least_two_are_true m.bin.isSome m.exampleName.isSome m.lib = false := by
    rw [hbin, hex, hlib]
    rfl
  have hv : validateSelectors tool m = .ok (none, m.release) := by
    rw [validateSelectors_ok tool m hval, hnb]
    simp [hsel]
  have hrun : run env tool m = runTool env tool m none m.release :=
    run_no_artifact env tool m m.release hv
  refine ⟨?_, ?_, ?_⟩
  · rw [hrun]
    exact runTool_ne_invalid env tool m none m.release
  · intro c hmem
    rw [hrun] at hmem
    rcases hc : Context.new env m.target_flag with e | ctxt
    · rw [runTool_err env tool m none m.release e hc] at hmem
      simp at hmem
    · rw [runTool_ok env tool m none m.release ctxt hc] at hmem
      rcases hp : placedInvocation env tool m none m.release ctxt with e | placedInv
      · rw [runWithContext_err env tool m none m.release ctxt e hp] at hmem
        simp at hmem
      · rw [runWithContext_ok env tool m none m.release ctxt placedInv hp] at hmem
        simp at hmem
  · intro inv hmem
    rw [hrun] at hmem
    rcases hc : Context.new env m.target_flag with e | ctxt
    · rw [runTool_err env tool m none m.release e hc] at hmem
      simp at hmem
    · rw [runTool_ok env tool m none m.release ctxt hc] at hmem
      obtain ⟨placedInv, hp, hi, _⟩ :=
        toolExec_runWithContext env tool m none m.release ctxt inv hmem
      have hpi := Except.ok.inj
        (show Except.ok (Context.tool env ctxt tool ctxt.target) = Except.ok placedInv from hp)
      refine ⟨ctxt, rfl, ?_⟩
      rw [hi, ← hpi]

/-- C4 witness: the size tool with no selector produces no invalidRequest. -/
theorem no_selector_no_build_witness :
    (run envW Tool.Size mNoSel).2 ≠ .error .invalidRequest :=
  (no_selector_no_build envW Tool.Size mNoSel rfl rfl rfl rfl).1

/-- C7: the postprocessing transform is selected solely by the tool:
demangling for nm and objdump, the size-table transform for size, and the
identity for objcopy, profdata and strip; and profdata, the only tool not
needing a build, skips build and artifact resolution entirely and its raw
output passes through unchanged. -/
theorem postprocess_selection (env : Env) (m : Matches) (out : List Nat) :
    postprocessOutput env Tool.Nm out = env.demangle out ∧
    postprocessOutput env Tool.Objdump out = env.demangle out ∧
    postprocessOutput env Tool.Size out = env.sizePP out ∧
    postprocessOutput env Tool.Objcopy out = out ∧
    postprocessOutput env Tool.Profdata out = out ∧
    postprocessOutput env Tool.Strip out = out ∧
    Tool.Profdata.needs_build = false ∧
    (∀ c, Event.buildExec c ∉ (run env Tool.Profdata m).1) ∧
    (∀ ctxt, Context.new env m.target_flag = .ok ctxt →
      run env Tool.Profdata m =
        ([Event.locate,
          Event.toolExec (withTrailing (Context.tool env ctxt Tool.Profdata ctxt.target) m),
          Event.writeOut
            (env.toolOutput
              (withTrailing (Context.tool env ctxt Tool.Profdata ctxt.target) m)).stdout],
         .ok (finalExit
           (env.toolOutput
             (withTrailing (Context.tool env ctxt Tool.Profdata ctxt.target) m)).status))) := by
  have hv : validateSelectors Tool.Profdata m = .ok (none, false) := rfl
  have hrun : run env Tool.Profdata m = runTool env Tool.Profdata m none false :=
    run_no_artifact env Tool.Profdata m false hv
  refine ⟨rfl, rfl, rfl, rfl, rfl, rfl, rfl, ?_, ?_⟩
  · intro c hmem
    rw [hrun] at hmem
    rcases hc : Context.new env m.target_flag with e | ctxt
    · rw [runTool_err env Tool.Profdata m none false e hc] at hmem
      simp at hmem
    · rw [runTool_ok env Tool.Profdata m none false ctxt hc] at hmem
      rcases hp : placedInvocation env Tool.Profdata m none false ctxt with e | placedInv
      · rw [runWithContext_err env Tool.Profdata m none false ctxt e hp] at hmem
        simp at hmem
      · rw [runWithContext_ok env Tool.Profdata m none false ctxt placedInv hp] at hmem
        simp at hmem
  · intro ctxt hc
    have hp : placedInvocation env Tool.Profdata m none false ctxt =
        .ok (Context.tool env ctxt Tool.Profdata ctxt.target) := rfl
    rw [hrun, runTool_ok env Tool.Profdata m none false ctxt hc,
      runWithContext_ok env Tool.Profdata m none false ctxt
        (Context.tool env ctxt Tool.Profdata ctxt.target) hp]
    rfl

/-- C7 witness: a concrete profdata run invokes the tool directly with the
raw output written unchanged. -/
theorem postprocess_selection_witness :
    run envW Tool.Profdata mNoSel =
      ([Event.locate,
        Event.toolExec (withTrailing (Context.tool envW ctxtW Tool.Profdata ctxtW.target) mNoSel),
        Event.writeOut
          (envW.toolOutput
            (withTrailing (Context.tool envW ctxtW Tool.Profdata ctxtW.target) mNoSel)).stdout],
       .ok (finalExit
         (envW.toolOutput
           (withTrailing (Context.tool envW ctxtW Tool.Profdata ctxtW.target) mNoSel)).status)) :=
  (postprocess_selection envW mNoSel []).2.2.2.2.2.2.2.2 ctxtW rfl

/-- C8: when the delegated build exits with a nonzero code, run returns that
code verbatim and its trace holds only the build execution: no toolchain
locating, tool invocation or postprocessing follows. -/
theorem build_failure_propagation (env : Env) (tool : Tool) (m : Matches) (kind : Artifact)
    (n : Int) (hnb : tool.needs_build = true)
    (hval : at_least_two_are_true m.bin.isSome m.exampleName.isSome m.lib = false)
    (hsel : (selectArtifact m).1 = some kind)
    (hcode : env.buildStatus.code = some n) (hn : n ≠ 0) :
    run env tool m =
      ([Event.buildExec (cargoCmd m.target_flag (some kind) (selectArtifact m).2)],
       .ok n) := by
  have hfail : env.buildStatus.success = false := by
    simp [ExitStatus.success, hcode, hn]
  rw [run_build_fail env tool m kind hnb hval hsel hfail, hcode]
  rfl

/-- C8 witness: a build exiting 101 makes the run return 101 at once. -/
theorem build_failure_propagation_witness :
    run envBuildFail Tool.Size mBin =
      ([Event.buildExec ["cargo", "build", "--bin", "app"]], .ok 101) :=
  build_failure_propagation envBuildFail Tool.Size mBin (Artifact.Bin "app") 101
    rfl (by decide) rfl rfl (by decide)

/-- C9: every executed tool invocation consists of a placed invocation
(base arguments plus the artifact argument when one was resolved) with the
user trailing arguments appended after it, the double-dash token first and
then the positional arguments, in their original order and unmodified. -/
theorem trailing_args_appended (env : Env) (tool : Tool) (m : Matches) (inv : ToolInvocation)
    (h : Event.toolExec inv ∈ (run env tool m).1) :
    ∃ a r ctxt placedInv,
      placedInvocation env tool m a r ctxt = .ok placedInv ∧
      inv.program = placedInv.program ∧ inv.cwd = placedInv.cwd ∧
      inv.args = placedInv.args ++ toolArgsOf m := by
  obtain ⟨a, r, ctxt, placedInv, hv, hc, hp, hi, hres⟩ := toolExec_run env tool m inv h
  subst hi
  exact ⟨a, r, ctxt, placedInv, hp, rfl, rfl, rfl⟩

/-- C9 witness: a strip run with trailing arguments appends them after the
artifact path argument, in order. -/
theorem trailing_args_appended_witness :
    ∃ a r ctxt placedInv,
      placedInvocation envW Tool.Strip mTrail a r ctxt = .ok placedInv ∧
      (ToolInvocation.mk "/sysroot/bin/llvm-strip"
        ["/proj/target/debug/app", "-x", "a", "b"] none).program = placedInv.program ∧
      (ToolInvocation.mk "/sysroot/bin/llvm-strip"
        ["/proj/target/debug/app", "-x", "a", "b"] none).cwd = placedInv.cwd ∧
      (ToolInvocation.mk "/sysroot/bin/llvm-strip"
        ["/proj/target/debug/app", "-x", "a", "b"] none).args =
        placedInv.args ++ toolArgsOf mTrail :=
  trailing_args_appended envW Tool.Strip mTrail
    (ToolInvocation.mk "/sysroot/bin/llvm-strip"
      ["/proj/target/debug/app", "-x", "a", "b"] none)
    (by decide)

/-- C10: the exit-code policy: a failed build yields its own exit code, or
the fixed code one when the build terminated without reporting one; once
the wrapped tool has been invoked, run returns zero when the tool
succeeded, the fixed code one when the tool terminated without a code, and
otherwise the nonzero code of the tool itself. -/
theorem exit_code_policy (env : Env) (tool : Tool) (m : Matches) :
    (∀ kind, tool.needs_build = true →
      at_least_two_are_true m.bin.isSome m.exampleName.isSome m.lib = false →
      (selectArtifact m).1 = some kind →
      env.buildStatus.success = false →
      ((env.buildStatus.code = none → (run env tool m).2 = .ok 1) ∧
       (∀ n, env.buildStatus.code = some n → (run env tool m).2 = .ok n))) ∧
    (∀ inv, Event.toolExec inv ∈ (run env tool m).1 →
      (((env.toolOutput inv).status.success = true → (run env tool m).2 = .ok 0) ∧
       ((env.toolOutput inv).status.code = none → (run env tool m).2 = .ok 1) ∧
       (∀ n, (env.toolOutput inv).status.code = some n → n ≠ 0 →
         (run env tool m).2 = .ok n))) := by
  constructor
  · intro kind hnb hval hsel hfail
    have hrun := run_build_fail env tool m kind hnb hval hsel hfail
    constructor
    · intro hcode
      rw [hrun]
      simp [hcode]
    · intro n hcode
      rw [hrun]
      simp [hcode]
  · intro inv hmem
    obtain ⟨a, r, ctxt, placedInv, hv, hc, hp, hi, hres⟩ := toolExec_run env tool m inv hmem
    refine ⟨?_, ?_, ?_⟩
    · intro hs
      rw [hres]
      simp [finalExit, hs]
    · intro hcode
      have hs : (env.toolOutput inv).status.success = false := by
        simp [ExitStatus.success, hcode]
      rw [hres]
      simp [finalExit, hs, hcode]
    · intro n hcode hn
      have hs : (env.toolOutput inv).status.success = false := by
        simp [ExitStatus.success, hcode, hn]
      rw [hres]
      simp [finalExit, hs, hcode]

/-- C10 witness: a successful strip run returns exit code zero. -/
theorem exit_code_policy_witness :
    (run envW Tool.Strip mNoSel).2 = .ok 0 :=
  ((exit_code_policy envW Tool.Strip mNoSel).2
    (ToolInvocation.mk "/sysroot/bin/llvm-strip" [] none) (by decide)).1 rfl

end CargoBinutils
